import Mathlib

/-!
Shallow embedding of the grocery POS transaction engine from
`grocery_pos.py`: the cart model (`scan_item`, `add_weighted_item`,
`remove_selected_item`, `clear_cart`), the pricing recomputation
(`update_total`), the sale journal (`log_sale`), the checkout protocol
(`checkout`) and the receipt formatter (`generate_receipt`).

Python `float` arithmetic is embedded as exact rationals `ℚ`; the three
JSON stores (products, inventory, sales log) are association lists that
keep insertion order, matching Python `dict` / `list` semantics.  Entry
widgets whose text is parsed with `float(...)` are embedded as `EntryVal`
(a number, the empty string, or unparseable text).
-/

/-- A catalog entry of `products.json`: `{"name": ..., "price": ...}`. -/
structure Product where
  name : String
  price : ℚ
  deriving Repr, DecidableEq

/-- A cart line as built by `scan_item` / `add_weighted_item`. -/
structure CartItem where
  name : String
  unit_price : ℚ
  quantity : ℚ
  line_total : ℚ
  is_weighted : Bool
  deriving Repr, DecidableEq

/-- One record of `sales_log.json`, as appended by `log_sale`. -/
structure SaleRecord where
  timestamp : String
  barcode : String
  name : String
  quantity : ℚ
  line_total : ℚ
  is_weighted : Bool
  deriving Repr, DecidableEq

/-- The text of an entry widget, as seen by Python `float(entry.get())`:
either it parses to a number, or it is empty, or it is unparseable text
(`float` raises `ValueError` on the last two). -/
inductive EntryVal where
  | empty
  | num (q : ℚ)
  | garbage
  deriving Repr, DecidableEq

/-- Python `dict` lookup `d[k]` / `d.get(k)` on an insertion-ordered
association list. -/
def lookupKey (k : String) : List (String × α) → Option α
  | [] => none
  | (k', v) :: rest => if k = k' then some v else lookupKey k rest

/-- Python `dict` assignment `d[k] = v`: updates the binding in place
(keeping its position) or appends a new binding at the end. -/
def setEntry (k : String) (v : α) : List (String × α) → List (String × α)
  | [] => [(k, v)]
  | (k', v') :: rest => if k = k' then (k, v) :: rest else (k', v') :: setEntry k v rest

/-- `self.cart.get(barcode, {}).get('quantity', 0)`. -/
def cartQty (cart : List (String × CartItem)) (bc : String) : ℚ :=
  match lookupKey bc cart with
  | some it => it.quantity
  | none => 0

/-- `self.inventory.get(barcode, {}).get('quantity', 0)`. -/
def stockQty (inv : List (String × ℚ)) (bc : String) : ℚ :=
  (lookupKey bc inv).getD 0

/-- `sum(item['line_total'] for item in self.cart.values())`. -/
def cartSubtotal (cart : List (String × CartItem)) : ℚ :=
  (cart.map (fun p => p.2.line_total)).sum

/-- The state of `POSFrame` together with the on-disk JSON stores.
`products`/`inventory` are the in-memory caches `self.products` /
`self.inventory` loaded by `refresh_data`; the `disk_*` fields are the
current contents of `products.json`, `inventory.json`, `sales_log.json`. -/
structure POSState where
  products : List (String × Product)
  inventory : List (String × ℚ)
  disk_products : List (String × Product)
  disk_inventory : List (String × ℚ)
  disk_sales : List SaleRecord
  cart : List (String × CartItem)
  discount_entry : EntryVal
  received_entry : EntryVal
  subtotal : ℚ
  final_total : ℚ
  shop_name : String
  deriving Repr, DecidableEq

/-- `POSFrame.refresh_data`: re-load the in-memory caches from the JSON
files (the low-stock dot update is pure UI and not modelled). -/
def refresh_data (s : POSState) : POSState :=
  { s with products := s.disk_products, inventory := s.disk_inventory }

/-- `POSFrame.update_total`: recompute `self.subtotal` from the cart;
parse the discount entry, a `ValueError` is caught and yields percent 0,
an out-of-range number resets the entry widget to `"0"` and yields
percent 0; then `final_total = subtotal - subtotal * percent / 100`. -/
def update_total (s : POSState) : POSState :=
  let sub := cartSubtotal s.cart
  let pe : ℚ × EntryVal :=
    match s.discount_entry with
    | .num q => if 0 ≤ q ∧ q ≤ 100 then (q, .num q) else (0, .num 0)
    | e => (0, e)
  { s with
    subtotal := sub
    final_total := sub - sub * (pe.1 / 100)
    discount_entry := pe.2 }

/-- Outcome of `POSFrame.scan_item` (the "Add Unit" action). -/
inductive AddResult where
  | noInput
  | invalidQuantity
  | unknownProduct
  | insufficientStock
  | ok
  deriving Repr, DecidableEq

/-- `POSFrame.scan_item`: add a unit item.  `qe` is the parse of the
quantity entry (`int(...)`, `none` on `ValueError`).  An empty barcode
returns silently; quantity must be a positive integer; the product must
be in the catalog cache; the stock check compares the inventory cache
against cart quantity plus the requested quantity.  On success the line
is created (with `is_weighted := false`) or aggregated, and the line
total is recomputed as `unit_price * quantity`. -/
def scan_item (s : POSState) (barcode : String) (qe : Option ℤ) :
    AddResult × POSState :=
  if barcode = "" then (.noInput, s)
  else
    match qe with
    | none => (.invalidQuantity, s)
    | some quantity_to_add =>
      if quantity_to_add ≤ 0 then (.invalidQuantity, s)
      else
        match lookupKey barcode s.products with
        | none => (.unknownProduct, s)
        | some product =>
          let current_stock := stockQty s.inventory barcode
          let cart_qty := cartQty s.cart barcode
          if current_stock < cart_qty + (quantity_to_add : ℚ) then
            (.insufficientStock, s)
          else
            let item :=
              match lookupKey barcode s.cart with
              | some it => { it with quantity := it.quantity + (quantity_to_add : ℚ) }
              | none =>
                { name := product.name
                  unit_price := product.price
                  quantity := (quantity_to_add : ℚ)
                  line_total := 0
                  is_weighted := false }
            let item := { item with line_total := item.unit_price * item.quantity }
            (.ok, update_total { s with cart := setEntry barcode item s.cart })

/-- Python `barcode.startswith("W-")`: the first two characters are
`W`, `-`. -/
def startsWithW (s : String) : Bool := s.data.take 2 = ['W', '-']

/-- Outcome of `POSFrame.add_weighted_item` (the "Add Weight" action). -/
inductive WeightResult where
  | invalidWeight
  | notWeighted
  | unknownProduct
  | insufficientStock
  | ok
  deriving Repr, DecidableEq

/-- `POSFrame.add_weighted_item`: add a weighted item.  `we` is the parse
of the weight entry (`float(...)`, `none` on `ValueError`).  Checks, in
source order: weight parses; barcode starts with the two characters of
the weighted marker; product is in the
catalog cache; weight is positive; stock check as in `scan_item`.  On
success an existing line gets `quantity += weight` and
`line_total += unit_price * weight` (incremental), a new line is created
with `is_weighted := true`. -/
def add_weighted_item (s : POSState) (barcode : String) (we : Option ℚ) :
    WeightResult × POSState :=
  match we with
  | none => (.invalidWeight, s)
  | some weight =>
    if ¬ (startsWithW barcode) then (.notWeighted, s)
    else
      match lookupKey barcode s.products with
      | none => (.unknownProduct, s)
      | some product =>
        if weight ≤ 0 then (.invalidWeight, s)
        else
          let current_stock := stockQty s.inventory barcode
          let cart_qty := cartQty s.cart barcode
          if current_stock < cart_qty + weight then (.insufficientStock, s)
          else
            let line_price := product.price * weight
            let item :=
              match lookupKey barcode s.cart with
              | some it =>
                { it with
                  quantity := it.quantity + weight
                  line_total := it.line_total + line_price }
              | none =>
                { name := product.name
                  unit_price := product.price
                  quantity := weight
                  line_total := line_price
                  is_weighted := true }
            (.ok, update_total { s with cart := setEntry barcode item s.cart })

/-- `POSFrame.remove_selected_item`: delete the whole cart line at the
selected index (after a yes/no confirmation); out-of-range selections and
a "no" answer leave the state unchanged. -/
def remove_selected_item (s : POSState) (idx : Nat) (confirm : Bool) : POSState :=
  match s.cart.get? idx with
  | none => s
  | some entry =>
    if confirm then
      update_total { s with cart := s.cart.eraseP (fun p => decide (p.1 = entry.1)) }
    else s

/-- `POSFrame.clear_cart`: empty the cart, reset the discount entry to
`"0"`, clear the received entry, and recompute totals. -/
def clear_cart (s : POSState) : POSState :=
  update_total { s with cart := [], discount_entry := .num 0, received_entry := .empty }

/-- One `sales_log.json` record built by `log_sale` for one cart line. -/
def log_entry (sale_time : String) (p : String × CartItem) : SaleRecord :=
  { timestamp := sale_time
    barcode := p.1
    name := p.2.name
    quantity := p.2.quantity
    line_total := p.2.line_total
    is_weighted := p.2.is_weighted }

/-- `log_sale`: load the sales log, append one record per cart line, all
stamped with the single `sale_time` taken once at entry, and save. -/
def log_sale (sales_log : List SaleRecord) (cart : List (String × CartItem))
    (sale_time : String) : List SaleRecord :=
  sales_log ++ cart.map (log_entry sale_time)

/-- A commit-phase anomaly surfaced to the operator during checkout. -/
inductive Warning where
  | negativeStock (barcode : String)
  | criticalMismatch (barcode : String)
  deriving Repr, DecidableEq

/-- One iteration of the checkout decrement loop: if the barcode is in
the inventory, decrement its quantity (warning if it goes negative,
without blocking or undoing); otherwise report a critical mismatch and
leave the inventory untouched. -/
def commitLine (inv : List (String × ℚ)) (bc : String) (qty : ℚ) :
    List (String × ℚ) × List Warning :=
  match lookupKey bc inv with
  | some q =>
    (setEntry bc (q - qty) inv,
     if q - qty < 0 then [.negativeStock bc] else [])
  | none => (inv, [.criticalMismatch bc])

/-- The checkout decrement loop over all cart lines (source lines
611-620), returning the updated inventory and the warnings raised. -/
def commitInventory (inv : List (String × ℚ)) :
    List (String × CartItem) → List (String × ℚ) × List Warning
  | [] => (inv, [])
  | (bc, it) :: rest =>
    let step := commitLine inv bc it.quantity
    let tail := commitInventory step.1 rest
    (tail.1, step.2 ++ tail.2)

/-- `Rs.`, the global currency symbol. -/
def CURRENCY_SYMBOL : String := "Rs."

/-- `"c" * 50`, the receipt separator line. -/
def sepLine (c : Char) : String := String.mk (List.replicate 50 c)

/-- Python `'{:<w}'`: pad on the right with spaces to width `w`
(strings longer than `w` are kept whole). -/
def padRight (s : String) (w : Nat) : String :=
  s ++ String.mk (List.replicate (w - s.length) ' ')

/-- Python `'{:>w}'`: pad on the left with spaces to width `w`. -/
def padLeft (s : String) (w : Nat) : String :=
  String.mk (List.replicate (w - s.length) ' ') ++ s

/-- Python `'{:^w}'`: centre in width `w`, extra space on the right. -/
def centerPad (s : String) (w : Nat) : String :=
  let total := w - s.length
  let left := total / 2
  String.mk (List.replicate left ' ') ++ s ++
    String.mk (List.replicate (total - left) ' ')

/-- Two decimal digits with a leading zero, for `fmt2`. -/
def twoDigits (m : Nat) : String :=
  (if m < 10 then "0" else "") ++ toString m

/-- Python `'{:.2f}'`: fixed two-decimal rendering of a number. -/
def fmt2 (q : ℚ) : String :=
  let n := round (q * 100)
  if n < 0 then
    "-" ++ toString ((-n).toNat / 100) ++ "." ++ twoDigits ((-n).toNat % 100)
  else
    toString (n.toNat / 100) ++ "." ++ twoDigits (n.toNat % 100)

/-- Python `'{:.0f}'`: render rounded to an integer. -/
def fmt0 (q : ℚ) : String := toString (round q)

/-- One item line of the receipt (source lines 535-540). -/
def receiptItemLine (item : CartItem) : String :=
  let qty_display :=
    if item.is_weighted then fmt2 item.quantity ++ " kg" else fmt0 item.quantity
  let amount_display := CURRENCY_SYMBOL ++ fmt2 item.line_total
  padRight qty_display 8 ++ padRight (item.name.take 24) 24 ++
    padLeft amount_display 8

/-- `POSFrame.generate_receipt`: the receipt text.  Besides the inputs the
specification lists, the source interpolates `datetime.datetime.now()`
into the `Date/Time:` line; that ambient clock reading is the `now`
argument here.  The shop name is upper-cased and centred; the items are
the cart lines in insertion order. -/
def generate_receipt (shop_name : String) (cart : List (String × CartItem))
    (subtotal final_total discount_amount discount_percent
     received_amount change_amount : ℚ) (now : String) : String :=
  let lines : List String :=
    [sepLine '=',
     " " ++ centerPad shop_name.toUpper 38,
     sepLine '=',
     "Date/Time: " ++ now,
     sepLine '-',
     padRight "QTY" 8 ++ padRight "ITEM" 24 ++ padLeft "AMOUNT" 8,
     sepLine '-']
    ++ cart.map (fun p => receiptItemLine p.2)
    ++ [sepLine '-',
        padRight "Subtotal:" 30 ++ CURRENCY_SYMBOL ++ padLeft (fmt2 subtotal) 8,
        "Discount (" ++ fmt0 discount_percent ++ "%): -" ++ CURRENCY_SYMBOL ++
          padLeft (fmt2 discount_amount) 8,
        padRight "TOTAL:" 30 ++ CURRENCY_SYMBOL ++ padLeft (fmt2 final_total) 8,
        sepLine '-',
        padRight "Amount Paid:" 30 ++ CURRENCY_SYMBOL ++
          padLeft (fmt2 received_amount) 8,
        padRight "Change Given:" 30 ++ CURRENCY_SYMBOL ++
          padLeft (fmt2 change_amount) 8,
        sepLine '=',
        "Thank you for shopping! Come Again!",
        sepLine '=']
  String.intercalate "\n" lines

/-- Outcome of `POSFrame.checkout`. -/
inductive CheckoutOutcome where
  | emptyCart
  | discountParseError
  | insufficientPayment
  | cancelled
  | committed (warnings : List Warning) (receipt : String)
  deriving Repr, DecidableEq

/-- The discount re-parse of checkout line 573,
`float(entry) if entry else 0.0`: an empty entry yields `0`, a number
yields itself, unparseable text raises an uncaught `ValueError`
(`none`). -/
def checkoutPercent : EntryVal → Option ℚ
  | .empty => some 0
  | .num q => some q
  | .garbage => none

/-- `float(self.received_entry.get())` with `ValueError` defaulting
to `0.0`. -/
def receivedAmount : EntryVal → ℚ
  | .num q => q
  | _ => 0

/-- `POSFrame.checkout`: the full checkout protocol in source order.
Gates: empty cart; totals recomputation (`update_total`); discount
re-parse (uncaught `ValueError` on unparseable text aborts here);
payment sufficiency (`received < final_total` rejects, equality passes);
operator confirmation.  Commit: append the sale records with one shared
timestamp, re-load the caches from disk (`refresh_data`), run the
decrement loop, persist the inventory, generate the receipt, clear the
cart. -/
def checkout (s : POSState) (confirm : Bool) (now : String) :
    CheckoutOutcome × POSState :=
  if s.cart = [] then (.emptyCart, s)
  else
    let s1 := update_total s
    match checkoutPercent s1.discount_entry with
    | none => (.discountParseError, s1)
    | some dp =>
      let discount_percent := if 0 ≤ dp ∧ dp ≤ 100 then dp else 0
      let discount_amount := s1.subtotal * (discount_percent / 100)
      let final_total := s1.subtotal - discount_amount
      let received_amount := receivedAmount s1.received_entry
      if received_amount < final_total then (.insufficientPayment, s1)
      else
        let change_amount := received_amount - final_total
        if ¬ confirm then (.cancelled, s1)
        else
          let s2 := { s1 with disk_sales := log_sale s1.disk_sales s1.cart now }
          let s3 := refresh_data s2
          let committed := commitInventory s3.inventory s3.cart
          let s4 := { s3 with inventory := committed.1, disk_inventory := committed.1 }
          let receipt := generate_receipt s4.shop_name s4.cart s4.subtotal
            final_total discount_amount discount_percent received_amount
            change_amount now
          (.committed committed.2 receipt, clear_cart s4)

/-- The effective discount percent of the pricing recomputation: parse
failures and out-of-range values count as 0. -/
def effPercent : EntryVal → ℚ
  | .num q => if 0 ≤ q ∧ q ≤ 100 then q else 0
  | _ => 0

/-! ### Basic lemmas about the association-list operations and state updates -/

theorem lookupKey_setEntry_self (k : String) (v : α) (l : List (String × α)) :
    lookupKey k (setEntry k v l) = some v := by
  induction l with
  | nil => simp [setEntry, lookupKey]
  | cons hd tl ih =>
    by_cases h : k = hd.1
    · simp [setEntry, lookupKey, h]
    · simpa [setEntry, lookupKey, h] using ih

theorem lookupKey_setEntry_ne (k k' : String) (h : k' ≠ k) (v : α)
    (l : List (String × α)) :
    lookupKey k' (setEntry k v l) = lookupKey k' l := by
  induction l with
  | nil => simp [setEntry, lookupKey, h]
  | cons hd tl ih =>
    by_cases hk : k = hd.1
    · subst hk
      simp [setEntry, lookupKey, h]
    · by_cases hk' : k' = hd.1
      · simp [setEntry, lookupKey, hk, hk']
      · simpa [setEntry, lookupKey, hk, hk'] using ih

theorem mem_setEntry {p : String × α} {k : String} {v : α} {l : List (String × α)}
    (h : p ∈ setEntry k v l) : p = (k, v) ∨ p ∈ l := by
  induction l with
  | nil => simpa [setEntry] using h
  | cons hd tl ih =>
    by_cases hk : k = hd.1
    · simp only [setEntry, if_pos hk, List.mem_cons] at h
      rcases h with h | h
      · exact Or.inl h
      · exact Or.inr (List.mem_cons_of_mem _ h)
    · simp only [setEntry, if_neg hk, List.mem_cons] at h
      rcases h with h | h
      · exact Or.inr (h ▸ List.mem_cons_self _ _)
      · rcases ih h with h' | h'
        · exact Or.inl h'
        · exact Or.inr (List.mem_cons_of_mem _ h')

theorem lookupKey_mem {k : String} {v : α} {l : List (String × α)}
    (h : lookupKey k l = some v) : (k, v) ∈ l := by
  induction l with
  | nil => simp [lookupKey] at h
  | cons hd tl ih =>
    by_cases hk : k = hd.1
    · simp only [lookupKey, if_pos hk, Option.some.injEq] at h
      subst h; subst hk
      exact List.mem_cons_self _ _
    · simp only [lookupKey, if_neg hk] at h
      exact List.mem_cons_of_mem _ (ih h)

@[simp] theorem update_total_cart (s : POSState) : (update_total s).cart = s.cart := rfl
@[simp] theorem update_total_products (s : POSState) :
    (update_total s).products = s.products := rfl
@[simp] theorem update_total_inventory (s : POSState) :
    (update_total s).inventory = s.inventory := rfl
@[simp] theorem update_total_disk_products (s : POSState) :
    (update_total s).disk_products = s.disk_products := rfl
@[simp] theorem update_total_disk_inventory (s : POSState) :
    (update_total s).disk_inventory = s.disk_inventory := rfl
@[simp] theorem update_total_disk_sales (s : POSState) :
    (update_total s).disk_sales = s.disk_sales := rfl
@[simp] theorem update_total_received_entry (s : POSState) :
    (update_total s).received_entry = s.received_entry := rfl
@[simp] theorem update_total_subtotal (s : POSState) :
    (update_total s).subtotal = cartSubtotal s.cart := rfl
@[simp] theorem clear_cart_disk_inventory (s : POSState) :
    (clear_cart s).disk_inventory = s.disk_inventory := rfl
@[simp] theorem clear_cart_disk_sales (s : POSState) :
    (clear_cart s).disk_sales = s.disk_sales := rfl
@[simp] theorem clear_cart_cart (s : POSState) : (clear_cart s).cart = [] := rfl
@[simp] theorem refresh_data_inventory (s : POSState) :
    (refresh_data s).inventory = s.disk_inventory := rfl
@[simp] theorem refresh_data_cart (s : POSState) : (refresh_data s).cart = s.cart := rfl

/-! ### Lemmas about the checkout decrement loop -/

theorem commitInventory_lookup_not_mem (inv : List (String × ℚ))
    (cart : List (String × CartItem)) (bc : String)
    (h : bc ∉ cart.map Prod.fst) :
    lookupKey bc (commitInventory inv cart).1 = lookupKey bc inv := by
  induction cart generalizing inv with
  | nil => rfl
  | cons hd tl ih =>
    simp only [List.map_cons, List.mem_cons] at h
    push_neg at h
    obtain ⟨hne, htl⟩ := h
    obtain ⟨k, it⟩ := hd
    simp only [commitInventory]
    rw [ih _ htl]
    unfold commitLine
    cases hk : lookupKey k inv with
    | none => rfl
    | some q => exact lookupKey_setEntry_ne k bc hne (q - it.quantity) inv

theorem commitInventory_spec (cart : List (String × CartItem))
    (inv : List (String × ℚ))
    (hnd : (cart.map Prod.fst).Nodup) (bc : String) (it : CartItem)
    (hmem : (bc, it) ∈ cart) :
    (∀ q, lookupKey bc inv = some q →
       lookupKey bc (commitInventory inv cart).1 = some (q - it.quantity) ∧
       (q - it.quantity < 0 →
         Warning.negativeStock bc ∈ (commitInventory inv cart).2)) ∧
    (lookupKey bc inv = none →
       Warning.criticalMismatch bc ∈ (commitInventory inv cart).2 ∧
       lookupKey bc (commitInventory inv cart).1 = none) := by
  induction cart generalizing inv with
  | nil => cases hmem
  | cons hd tl ih =>
    obtain ⟨k, kit⟩ := hd
    simp only [List.map_cons, List.nodup_cons] at hnd
    obtain ⟨hknotin, hndtl⟩ := hnd
    rcases List.mem_cons.mp hmem with heq | htl
    · rw [Prod.mk.injEq] at heq
      obtain ⟨rfl, rfl⟩ := heq
      constructor
      · intro q hq
        simp only [commitInventory, commitLine, hq]
        constructor
        · rw [commitInventory_lookup_not_mem _ _ _ hknotin]
          exact lookupKey_setEntry_self bc (q - it.quantity) inv
        · intro hneg
          rw [if_pos hneg]
          exact List.mem_append_left _ (List.mem_singleton_self _)
      · intro hq
        simp only [commitInventory, commitLine, hq]
        refine ⟨List.mem_append_left _ (List.mem_singleton_self _), ?_⟩
        rw [commitInventory_lookup_not_mem _ _ _ hknotin]
        exact hq
    · have hbc_in : bc ∈ tl.map Prod.fst :=
        List.mem_map.mpr ⟨(bc, it), htl, rfl⟩
      have hkne : k ≠ bc := fun h => hknotin (h ▸ hbc_in)
      have hstep : lookupKey bc (commitLine inv k kit.quantity).1 = lookupKey bc inv := by
        unfold commitLine
        cases hk : lookupKey k inv with
        | none => rfl
        | some q => exact lookupKey_setEntry_ne k bc (Ne.symm hkne) (q - kit.quantity) inv
      have IH := ih (commitLine inv k kit.quantity).1 hndtl htl
      constructor
      · intro q hq
        rw [← hstep] at hq
        obtain ⟨h1, h2⟩ := (IH.1 q hq)
        refine ⟨?_, fun hneg => ?_⟩
        · simpa [commitInventory] using h1
        · simp only [commitInventory, List.mem_append]
          exact Or.inr (h2 hneg)
      · intro hq
        rw [← hstep] at hq
        obtain ⟨h1, h2⟩ := IH.2 hq
        constructor
        · simp only [commitInventory, List.mem_append]
          exact Or.inr h1
        · simpa [commitInventory] using h2

/-- What the commit phase of `checkout` does to the durable stores:
once the outcome is `committed`, the warnings and the persisted inventory
are those of the decrement loop run against a fresh read of the ledger,
the sales log has gained one record per cart line, and the cart is
cleared. -/
theorem checkout_committed_eq (s : POSState) (c : Bool) (now : String)
    (ws : List Warning) (r : String) (s' : POSState)
    (h : checkout s c now = (.committed ws r, s')) :
    ws = (commitInventory s.disk_inventory s.cart).2 ∧
    s'.disk_inventory = (commitInventory s.disk_inventory s.cart).1 ∧
    s'.disk_sales = s.disk_sales ++ s.cart.map (log_entry now) ∧
    s'.cart = [] := by
  by_cases hc : s.cart = []
  · unfold checkout at h
    rw [if_pos hc] at h
    simp at h
  · unfold checkout at h
    rw [if_neg hc] at h
    dsimp only at h
    cases hp : checkoutPercent (update_total s).discount_entry with
    | none =>
      rw [hp] at h
      simp at h
    | some dp =>
      rw [hp] at h
      dsimp only at h
      split at h <;> split at h <;>
        first
        | (simp at h; done)
        | (split at h <;>
            first
            | (simp at h; done)
            | (rw [Prod.mk.injEq] at h
               obtain ⟨hout, hstate⟩ := h
               injection hout with hws hr
               subst hstate
               refine ⟨?_, ?_, ?_, rfl⟩
               · simpa [refresh_data, log_sale] using hws.symm
               · simp [refresh_data, log_sale]
               · simp [refresh_data, log_sale]))

/-- Whether a checkout outcome is a committed sale. -/
def isCommitted : CheckoutOutcome → Bool
  | .committed _ _ => true
  | _ => false

/-- The warnings carried by a committed outcome. -/
def coWarnings : CheckoutOutcome → List Warning
  | .committed ws _ => ws
  | _ => []

/-- Observer form of `checkout_committed_eq`. -/
theorem checkout_committed_obs (s : POSState) (c : Bool) (now : String)
    (h : isCommitted (checkout s c now).1 = true) :
    coWarnings (checkout s c now).1 = (commitInventory s.disk_inventory s.cart).2 ∧
    (checkout s c now).2.disk_inventory = (commitInventory s.disk_inventory s.cart).1 ∧
    (checkout s c now).2.disk_sales = s.disk_sales ++ s.cart.map (log_entry now) ∧
    (checkout s c now).2.cart = [] := by
  rcases hco : checkout s c now with ⟨out, s2⟩
  rw [hco] at h
  cases out with
  | committed ws r =>
    have H := checkout_committed_eq s c now ws r s2 hco
    simpa [coWarnings] using H
  | emptyCart => simp [isCommitted] at h
  | discountParseError => simp [isCommitted] at h
  | insufficientPayment => simp [isCommitted] at h
  | cancelled => simp [isCommitted] at h

/-- C1: During the Committing phase of checkout, after the Stock Ledger is
re-loaded, every cart line whose identifier is present in the ledger has
its stock entry decremented by exactly that line's quantity and the
updated ledger is persisted; a decrement that drives an entry negative
raises the negative-stock warning but is neither blocked nor undone, and
an identifier absent from the ledger raises the critical-mismatch report
while every other line's decrement still settles. -/
theorem C1_commit_decrements (s : POSState) (c : Bool) (now : String)
    (hnd : (s.cart.map Prod.fst).Nodup)
    (h : isCommitted (checkout s c now).1 = true) :
    (checkout s c now).2.disk_inventory = (commitInventory s.disk_inventory s.cart).1 ∧
    ∀ bc it, (bc, it) ∈ s.cart →
      (∀ q, lookupKey bc s.disk_inventory = some q →
         lookupKey bc (checkout s c now).2.disk_inventory = some (q - it.quantity) ∧
         (q - it.quantity < 0 →
           Warning.negativeStock bc ∈ coWarnings (checkout s c now).1)) ∧
      (lookupKey bc s.disk_inventory = none →
         Warning.criticalMismatch bc ∈ coWarnings (checkout s c now).1 ∧
         lookupKey bc (checkout s c now).2.disk_inventory = none) := by
  obtain ⟨hws, hinv, _, _⟩ := checkout_committed_obs s c now h
  refine ⟨hinv, fun bc it hmem => ?_⟩
  rw [hinv, hws]
  exact commitInventory_spec s.cart s.disk_inventory hnd bc it hmem

/-- A unit cart line of three units of product 1001 at 50 each. -/
def itemA : CartItem :=
  { name := "Rice", unit_price := 50, quantity := 3, line_total := 150, is_weighted := false }

/-- A unit cart line for a product that is sellable but untracked. -/
def itemB : CartItem :=
  { name := "Ghost", unit_price := 10, quantity := 1, line_total := 10, is_weighted := false }

/-- Checkout scenario: product 1001 has only 2 in the durable ledger while
3 are sold, and product 2002 is absent from the ledger. -/
def sCommit : POSState :=
  { products := [("1001", { name := "Rice", price := 50 }),
                 ("2002", { name := "Ghost", price := 10 })]
    inventory := [("1001", 2)]
    disk_products := [("1001", { name := "Rice", price := 50 }),
                      ("2002", { name := "Ghost", price := 10 })]
    disk_inventory := [("1001", 2)]
    disk_sales := []
    cart := [("1001", itemA), ("2002", itemB)]
    discount_entry := .num 0
    received_entry := .num 200
    subtotal := 160
    final_total := 160
    shop_name := "Shop" }

theorem C1_commit_decrements_witness :
    Warning.negativeStock "1001" ∈ coWarnings (checkout sCommit true "T").1 ∧
    Warning.criticalMismatch "2002" ∈ coWarnings (checkout sCommit true "T").1 ∧
    lookupKey "1001" (checkout sCommit true "T").2.disk_inventory =
      some (2 - itemA.quantity) := by
  have hc : sCommit.cart ≠ [] := by simp [sCommit]
  have h : isCommitted (checkout sCommit true "T").1 = true := by
    unfold checkout
    rw [if_neg hc]
    norm_num [sCommit, update_total, cartSubtotal, checkoutPercent,
      receivedAmount, isCommitted, itemA, itemB]
  have H := C1_commit_decrements sCommit true "T" (by decide) h
  have hmemA : ("1001", itemA) ∈ sCommit.cart := by simp [sCommit]
  have hmemB : ("2002", itemB) ∈ sCommit.cart := by simp [sCommit]
  have hlookA : lookupKey "1001" sCommit.disk_inventory = some 2 := rfl
  have hlookB : lookupKey "2002" sCommit.disk_inventory = none := rfl
  refine ⟨((H.2 "1001" itemA hmemA).1 2 hlookA).2 (by norm_num [itemA]),
          ((H.2 "2002" itemB hmemB).2 hlookB).1,
          ((H.2 "1001" itemA hmemA).1 2 hlookA).1⟩

/-- C8: A committed checkout appends exactly one sale record per cart
line to the Sales Journal, all sharing the single commit timestamp, and
all journal entries present before the commit are preserved unchanged at
the front of the saved journal (append-only). -/
theorem C8_journal_append (s : POSState) (c : Bool) (now : String)
    (h : isCommitted (checkout s c now).1 = true) :
    (checkout s c now).2.disk_sales = s.disk_sales ++ s.cart.map (log_entry now) ∧
    (s.cart.map (log_entry now)).length = s.cart.length ∧
    ∀ sr ∈ s.cart.map (log_entry now), sr.timestamp = now := by
  obtain ⟨_, _, hsales, _⟩ := checkout_committed_obs s c now h
  refine ⟨hsales, List.length_map _ _, fun sr hsr => ?_⟩
  obtain ⟨p, _, rfl⟩ := List.mem_map.mp hsr
  rfl

theorem C8_journal_append_witness :
    (checkout sCommit true "T").2.disk_sales =
      sCommit.disk_sales ++ sCommit.cart.map (log_entry "T") ∧
    (sCommit.cart.map (log_entry "T")).length = sCommit.cart.length ∧
    ∀ sr ∈ sCommit.cart.map (log_entry "T"), sr.timestamp = "T" :=
  C8_journal_append sCommit true "T" (by
    have hc : sCommit.cart ≠ [] := by simp [sCommit]
    unfold checkout
    rw [if_neg hc]
    norm_num [sCommit, update_total, cartSubtotal, checkoutPercent,
      receivedAmount, isCommitted, itemA, itemB])

theorem update_total_final_total (s : POSState) :
    (update_total s).final_total =
      cartSubtotal s.cart - cartSubtotal s.cart * (effPercent s.discount_entry / 100) := by
  cases h : s.discount_entry with
  | num q =>
    by_cases hr : 0 ≤ q ∧ q ≤ 100 <;>
      simp [update_total, effPercent, h, hr]
  | empty => simp [update_total, effPercent, h]
  | garbage => simp [update_total, effPercent, h]

theorem checkoutPercent_update_total (s : POSState)
    (hd : s.discount_entry ≠ EntryVal.garbage) :
    checkoutPercent (update_total s).discount_entry =
      some (effPercent s.discount_entry) := by
  cases h : s.discount_entry with
  | num q =>
    by_cases hr : 0 ≤ q ∧ q ≤ 100 <;>
      simp [update_total, checkoutPercent, effPercent, h, hr]
  | empty => simp [update_total, checkoutPercent, effPercent, h]
  | garbage => exact absurd h hd

theorem effPercent_bounds (e : EntryVal) :
    0 ≤ effPercent e ∧ effPercent e ≤ 100 := by
  cases e with
  | num q =>
    by_cases hr : 0 ≤ q ∧ q ≤ 100 <;> simp [effPercent, hr]
  | empty => simp [effPercent]
  | garbage => simp [effPercent]

/-- C2: Checkout fails with the insufficient-payment error exactly when
the received amount is strictly below the final total (equality is
accepted), and on this failure neither the Stock Ledger, nor the Sales
Journal, nor the Cart is mutated. -/
theorem C2_insufficient_payment (s : POSState) (c : Bool) (now : String)
    (hcart : s.cart ≠ []) (hd : s.discount_entry ≠ EntryVal.garbage) :
    ((checkout s c now).1 = CheckoutOutcome.insufficientPayment ↔
      receivedAmount s.received_entry <
        cartSubtotal s.cart - cartSubtotal s.cart * (effPercent s.discount_entry / 100))
    ∧ ((checkout s c now).1 = CheckoutOutcome.insufficientPayment →
        (checkout s c now).2.cart = s.cart ∧
        (checkout s c now).2.disk_inventory = s.disk_inventory ∧
        (checkout s c now).2.disk_sales = s.disk_sales) := by
  unfold checkout
  rw [if_neg hcart]
  dsimp only
  rw [checkoutPercent_update_total s hd]
  dsimp only
  rw [if_pos (effPercent_bounds s.discount_entry), update_total_received_entry,
    update_total_subtotal]
  by_cases hlt : receivedAmount s.received_entry <
      cartSubtotal s.cart - cartSubtotal s.cart * (effPercent s.discount_entry / 100)
  · rw [if_pos hlt]
    exact ⟨by simpa using hlt, fun _ => ⟨by simp, by simp, by simp⟩⟩
  · rw [if_neg hlt]
    cases c <;> simp [hlt]

/-- A one-line cart worth 50. -/
def itemE : CartItem :=
  { name := "Rice", unit_price := 50, quantity := 1, line_total := 50, is_weighted := false }

/-- End-to-end scenario E: total 50.00 but only 40.00 received. -/
def sE : POSState :=
  { products := [("1001", { name := "Rice", price := 50 })]
    inventory := [("1001", 100)]
    disk_products := [("1001", { name := "Rice", price := 50 })]
    disk_inventory := [("1001", 100)]
    disk_sales := []
    cart := [("1001", itemE)]
    discount_entry := .num 0
    received_entry := .num 40
    subtotal := 50
    final_total := 50
    shop_name := "Shop" }

theorem C2_insufficient_payment_witness :
    (checkout sE true "T").1 = CheckoutOutcome.insufficientPayment ∧
    (checkout sE true "T").2.cart = sE.cart ∧
    (checkout sE true "T").2.disk_inventory = sE.disk_inventory ∧
    (checkout sE true "T").2.disk_sales = sE.disk_sales := by
  have H := C2_insufficient_payment sE true "T" (by simp [sE]) (by simp [sE])
  have hlt : receivedAmount sE.received_entry <
      cartSubtotal sE.cart - cartSubtotal sE.cart * (effPercent sE.discount_entry / 100) := by
    norm_num [sE, receivedAmount, cartSubtotal, effPercent, itemE]
  have hout := H.1.mpr hlt
  exact ⟨hout, (H.2 hout).1, (H.2 hout).2.1, (H.2 hout).2.2⟩

/-- C4: `add_unit` and `add_weighted` reject with the insufficient-stock
error every otherwise valid request where the requested quantity plus the
quantity already in the cart for that identifier exceeds the available
stock, and on rejection the whole state (in particular the cart) is left
unchanged. -/
theorem C4_insufficient_stock (s : POSState) (bc : String) :
    (∀ (q : ℤ) (pr : Product), bc ≠ "" → lookupKey bc s.products = some pr →
      0 < q → stockQty s.inventory bc < cartQty s.cart bc + (q : ℚ) →
      scan_item s bc (some q) = (AddResult.insufficientStock, s))
    ∧ (∀ (w : ℚ) (pr : Product), startsWithW bc = true →
      lookupKey bc s.products = some pr → 0 < w →
      stockQty s.inventory bc < cartQty s.cart bc + w →
      add_weighted_item s bc (some w) = (WeightResult.insufficientStock, s)) := by
  constructor
  · intro q pr hbc hpr hq hstock
    simp [scan_item, hbc, hpr, hq.not_le, hstock]
  · intro w pr hw hpr hwpos hstock
    simp [add_weighted_item, hw, hpr, hwpos.not_le, hstock]

/-- Five units of product 1001 already in the cart. -/
def itemC : CartItem :=
  { name := "Rice", unit_price := 50, quantity := 5, line_total := 250, is_weighted := false }

/-- 9.5 kg of W-APPLE already in the cart. -/
def itemCW : CartItem :=
  { name := "Apple", unit_price := 80, quantity := 19/2, line_total := 760, is_weighted := true }

/-- End-to-end scenario C: available stock 5, five already in the cart;
plus a weighted analogue with 10 kg stock and 9.5 kg in the cart. -/
def sC : POSState :=
  { products := [("1001", { name := "Rice", price := 50 }),
                 ("W-APPLE", { name := "Apple", price := 80 })]
    inventory := [("1001", 5), ("W-APPLE", 10)]
    disk_products := [("1001", { name := "Rice", price := 50 }),
                      ("W-APPLE", { name := "Apple", price := 80 })]
    disk_inventory := [("1001", 5), ("W-APPLE", 10)]
    disk_sales := []
    cart := [("1001", itemC), ("W-APPLE", itemCW)]
    discount_entry := .num 0
    received_entry := .empty
    subtotal := 1010
    final_total := 1010
    shop_name := "Shop" }

theorem C4_insufficient_stock_witness :
    scan_item sC "1001" (some 1) = (AddResult.insufficientStock, sC) ∧
    add_weighted_item sC "W-APPLE" (some 1) = (WeightResult.insufficientStock, sC) :=
  ⟨(C4_insufficient_stock sC "1001").1 1 { name := "Rice", price := 50 }
      (by decide) rfl (by decide)
      (by norm_num [sC, stockQty, cartQty, lookupKey, itemC]),
   (C4_insufficient_stock sC "W-APPLE").2 1 { name := "Apple", price := 80 }
      (by decide) rfl (by decide)
      (by norm_num [sC, stockQty, cartQty, lookupKey, itemCW,
        (show ("W-APPLE" : String) ≠ "1001" from by decide)])⟩

/-- A stale cache: the in-memory inventory says 5 but the durable ledger
says 0 for product 1001. -/
def sStale : POSState :=
  { products := [("1001", { name := "Rice", price := 50 })]
    inventory := [("1001", 5)]
    disk_products := [("1001", { name := "Rice", price := 50 })]
    disk_inventory := [("1001", 0)]
    disk_sales := []
    cart := []
    discount_entry := .num 0
    received_entry := .empty
    subtotal := 0
    final_total := 0
    shop_name := "Shop" }

/-- C3 counterexample: with the durable Stock Ledger holding 0 units of
product 1001 but the in-memory cache still holding 5, `scan_item`
accepts adding one unit — so the insufficient-stock comparison cannot
have used the value stored in the durable ledger at call time. -/
theorem C3_counterexample :
    (scan_item sStale "1001" (some 1)).1 = AddResult.ok ∧
    stockQty sStale.disk_inventory "1001" < cartQty sStale.cart "1001" + (1 : ℚ) := by
  constructor
  · norm_num [scan_item, sStale, stockQty, cartQty, lookupKey,
      (show ("1001" : String) ≠ "" from by decide)]
  · norm_num [sStale, stockQty, cartQty, lookupKey]

/-- C3 amended: the available-stock value used in the insufficient-stock
comparison of `scan_item` is the quantity in the in-memory inventory
cache (`self.inventory`), which equals the durable Stock Ledger only as
of the most recent `refresh_data` (frame initialisation, frame display,
or the previous checkout), not a fresh read at call time. -/
theorem C3_cached_stock (s : POSState) (bc : String) (q : ℤ) (pr : Product)
    (hbc : bc ≠ "") (hpr : lookupKey bc s.products = some pr) (hq : 0 < q) :
    ((scan_item s bc (some q)).1 = AddResult.insufficientStock ↔
      stockQty s.inventory bc < cartQty s.cart bc + (q : ℚ))
    ∧ (refresh_data s).inventory = s.disk_inventory := by
  refine ⟨?_, rfl⟩
  by_cases hst : stockQty s.inventory bc < cartQty s.cart bc + (q : ℚ)
  · simp [scan_item, hbc, hpr, hq.not_le, hst]
  · simp [scan_item, hbc, hpr, hq.not_le, hst]

theorem C3_cached_stock_witness :
    ((scan_item sStale "1001" (some 1)).1 = AddResult.insufficientStock ↔
      stockQty sStale.inventory "1001" < cartQty sStale.cart "1001" + (1 : ℚ))
    ∧ (refresh_data sStale).inventory = sStale.disk_inventory :=
  C3_cached_stock sStale "1001" 1 { name := "Rice", price := 50 }
    (by decide) rfl (by decide)

/-- What a successful `scan_item` does to the cart line of the scanned
barcode: aggregate into the existing line (quantity increased, line total
recomputed from the line's stored unit price, other fields unchanged) or
create a fresh unit line from the catalog entry. -/
theorem scan_item_ok_line (s : POSState) (bc : String) (q : ℤ) (s' : POSState)
    (h : scan_item s bc (some q) = (AddResult.ok, s')) :
    s'.products = s.products ∧
    ∃ pr, lookupKey bc s.products = some pr ∧
      ((∃ it, lookupKey bc s.cart = some it ∧
          lookupKey bc s'.cart = some
            { it with
              quantity := it.quantity + (q : ℚ)
              line_total := it.unit_price * (it.quantity + (q : ℚ)) }) ∨
       (lookupKey bc s.cart = none ∧
          lookupKey bc s'.cart = some
            { name := pr.name
              unit_price := pr.price
              quantity := (q : ℚ)
              line_total := pr.price * (q : ℚ)
              is_weighted := false })) := by
  unfold scan_item at h
  split at h
  · simp at h
  · dsimp only at h
    split at h
    · simp at h
    · split at h
      · simp at h
      · rename_i pr hpr
        split at h
        · simp at h
        · split at h
          · rename_i it hit
            rw [Prod.mk.injEq] at h
            obtain ⟨-, hs⟩ := h
            subst hs
            exact ⟨rfl, pr, hpr, Or.inl ⟨it, hit,
              by simp [lookupKey_setEntry_self]⟩⟩
          · rename_i hnone
            rw [Prod.mk.injEq] at h
            obtain ⟨-, hs⟩ := h
            subst hs
            exact ⟨rfl, pr, hpr, Or.inr ⟨hnone,
              by simp [lookupKey_setEntry_self]⟩⟩

/-- What a successful `add_weighted_item` does to the cart line of the
barcode: aggregate (quantity increased, the incremental price
`catalog price * weight` added to the stored line total) or create a
fresh weighted line from the catalog entry. -/
theorem add_weighted_ok_line (s : POSState) (bc : String) (w : ℚ) (s' : POSState)
    (h : add_weighted_item s bc (some w) = (WeightResult.ok, s')) :
    s'.products = s.products ∧
    ∃ pr, lookupKey bc s.products = some pr ∧
      ((∃ it, lookupKey bc s.cart = some it ∧
          lookupKey bc s'.cart = some
            { it with
              quantity := it.quantity + w
              line_total := it.line_total + pr.price * w }) ∨
       (lookupKey bc s.cart = none ∧
          lookupKey bc s'.cart = some
            { name := pr.name
              unit_price := pr.price
              quantity := w
              line_total := pr.price * w
              is_weighted := true })) := by
  unfold add_weighted_item at h
  dsimp only at h
  split at h
  · simp at h
  · split at h
    · simp at h
    · rename_i pr hpr
      split at h
      · simp at h
      · split at h
        · simp at h
        · split at h
          · rename_i it hit
            rw [Prod.mk.injEq] at h
            obtain ⟨-, hs⟩ := h
            subst hs
            exact ⟨rfl, pr, hpr, Or.inl ⟨it, hit,
              by simp [lookupKey_setEntry_self]⟩⟩
          · rename_i hnone
            rw [Prod.mk.injEq] at h
            obtain ⟨-, hs⟩ := h
            subst hs
            exact ⟨rfl, pr, hpr, Or.inr ⟨hnone,
              by simp [lookupKey_setEntry_self]⟩⟩

/-- One add action on a fixed identifier: a unit scan of `q` units or a
weighted add of `w` kilograms. -/
inductive AddOp where
  | unit (q : ℤ)
  | weighted (w : ℚ)

/-- The quantity an add operation requests. -/
def addQty : AddOp → ℚ
  | .unit q => (q : ℚ)
  | .weighted w => w

/-- Run one add operation, keeping the state only on success. -/
def applyAdd (bc : String) (op : AddOp) (s : POSState) : Option POSState :=
  match op with
  | .unit q =>
    match scan_item s bc (some q) with
    | (AddResult.ok, s') => some s'
    | _ => none
  | .weighted w =>
    match add_weighted_item s bc (some w) with
    | (WeightResult.ok, s') => some s'
    | _ => none

/-- Run a sequence of add operations; `none` as soon as one fails. -/
def runAdds (bc : String) : List AddOp → POSState → Option POSState
  | [], s => some s
  | op :: rest, s => (applyAdd bc op s).bind (runAdds bc rest)

/-- The cart line for `bc` exists, carries the catalog unit price, has
accumulated quantity `T` and line total `price * T`. -/
def GoodLine (s : POSState) (bc : String) (T : ℚ) : Prop :=
  ∃ pr, lookupKey bc s.products = some pr ∧
    ∃ it, lookupKey bc s.cart = some it ∧
      it.unit_price = pr.price ∧ it.quantity = T ∧ it.line_total = pr.price * T

theorem applyAdd_good (bc : String) (op : AddOp) (s s' : POSState) (T : ℚ)
    (hg : GoodLine s bc T) (h : applyAdd bc op s = some s') :
    GoodLine s' bc (T + addQty op) := by
  obtain ⟨pr, hpr, it, hit, hup, hqty, hlt⟩ := hg
  cases op with
  | unit q =>
    simp only [applyAdd] at h
    split at h
    · rename_i s1 heq
      rw [Option.some.injEq] at h
      subst h
      obtain ⟨hprods, pr', hpr', hcases⟩ := scan_item_ok_line s bc q s1 heq
      rw [hpr] at hpr'
      rw [Option.some.injEq] at hpr'
      subst hpr'
      rcases hcases with ⟨it', hit', hnew⟩ | ⟨hnone, -⟩
      · rw [hit] at hit'
        rw [Option.some.injEq] at hit'
        subst hit'
        refine ⟨pr, by rw [hprods]; exact hpr, _, hnew, hup, by simp [addQty, hqty], ?_⟩
        simp only [addQty]
        rw [hup, hqty]
      · rw [hit] at hnone
        cases hnone
    · cases h
  | weighted w =>
    simp only [applyAdd] at h
    split at h
    · rename_i s1 heq
      rw [Option.some.injEq] at h
      subst h
      obtain ⟨hprods, pr', hpr', hcases⟩ := add_weighted_ok_line s bc w s1 heq
      rw [hpr] at hpr'
      rw [Option.some.injEq] at hpr'
      subst hpr'
      rcases hcases with ⟨it', hit', hnew⟩ | ⟨hnone, -⟩
      · rw [hit] at hit'
        rw [Option.some.injEq] at hit'
        subst hit'
        refine ⟨pr, by rw [hprods]; exact hpr, _, hnew, hup, by simp [addQty, hqty], ?_⟩
        simp only [addQty]
        rw [hlt]
        ring
      · rw [hit] at hnone
        cases hnone
    · cases h

theorem applyAdd_create (bc : String) (op : AddOp) (s s' : POSState)
    (h0 : lookupKey bc s.cart = none) (h : applyAdd bc op s = some s') :
    GoodLine s' bc (addQty op) := by
  cases op with
  | unit q =>
    simp only [applyAdd] at h
    split at h
    · rename_i s1 heq
      rw [Option.some.injEq] at h
      subst h
      obtain ⟨hprods, pr, hpr, hcases⟩ := scan_item_ok_line s bc q s1 heq
      rcases hcases with ⟨it', hit', -⟩ | ⟨-, hnew⟩
      · rw [h0] at hit'
        cases hit'
      · exact ⟨pr, by rw [hprods]; exact hpr, _, hnew, rfl, rfl, rfl⟩
    · cases h
  | weighted w =>
    simp only [applyAdd] at h
    split at h
    · rename_i s1 heq
      rw [Option.some.injEq] at h
      subst h
      obtain ⟨hprods, pr, hpr, hcases⟩ := add_weighted_ok_line s bc w s1 heq
      rcases hcases with ⟨it', hit', -⟩ | ⟨-, hnew⟩
      · rw [h0] at hit'
        cases hit'
      · exact ⟨pr, by rw [hprods]; exact hpr, _, hnew, rfl, rfl, rfl⟩
    · cases h

theorem runAdds_good (bc : String) (ops : List AddOp) :
    ∀ s s' T, GoodLine s bc T → runAdds bc ops s = some s' →
      GoodLine s' bc (T + (ops.map addQty).sum) := by
  induction ops with
  | nil =>
    intro s s' T hg h
    rw [runAdds, Option.some.injEq] at h
    subst h
    simpa using hg
  | cons op rest ih =>
    intro s s' T hg h
    rw [runAdds] at h
    cases hap : applyAdd bc op s with
    | none => rw [hap] at h; cases h
    | some s1 =>
      rw [hap, Option.some_bind] at h
      have hg1 := applyAdd_good bc op s s1 T hg hap
      have hg2 := ih s1 s' (T + addQty op) hg1 h
      simpa [add_assoc] using hg2

/-- C5: For every nonempty sequence of successful `add_unit` /
`add_weighted` calls on the same identifier (starting with no line for
it), the resulting cart line's quantity equals the sum of the added
quantities and its line total equals the line's unit price times that
total quantity — exactly, in the rational embedding, whether the total is
recomputed from scratch (unit adds) or maintained incrementally
(weighted adds). -/
theorem C5_line_aggregation (bc : String) (op : AddOp) (ops : List AddOp)
    (s s' : POSState) (h0 : lookupKey bc s.cart = none)
    (h : runAdds bc (op :: ops) s = some s') :
    ∃ it, lookupKey bc s'.cart = some it ∧
      it.quantity = ((op :: ops).map addQty).sum ∧
      it.line_total = it.unit_price * it.quantity := by
  rw [runAdds] at h
  cases hap : applyAdd bc op s with
  | none => rw [hap] at h; cases h
  | some s1 =>
    rw [hap, Option.some_bind] at h
    have hg1 := applyAdd_create bc op s s1 h0 hap
    have hg := runAdds_good bc ops s1 s' (addQty op) hg1 h
    obtain ⟨pr, hpr, it, hit, hup, hqty, hlt⟩ := hg
    refine ⟨it, hit, by simpa using hqty, ?_⟩
    rw [hlt, hup, hqty]

/-- Scenario B's starting state: weighted product W-APPLE at 80 per kg,
10 kg in stock, empty cart. -/
def sB0 : POSState :=
  { products := [("W-APPLE", { name := "Apple", price := 80 })]
    inventory := [("W-APPLE", 10)]
    disk_products := [("W-APPLE", { name := "Apple", price := 80 })]
    disk_inventory := [("W-APPLE", 10)]
    disk_sales := []
    cart := []
    discount_entry := .num 0
    received_entry := .empty
    subtotal := 0
    final_total := 0
    shop_name := "Shop" }

theorem C5_line_aggregation_witness :
    ∃ it, lookupKey "W-APPLE"
        ((runAdds "W-APPLE" [AddOp.weighted (5/2), AddOp.weighted 1] sB0).getD sB0).cart
        = some it ∧
      it.quantity = ([AddOp.weighted (5/2), AddOp.weighted 1].map addQty).sum ∧
      it.line_total = it.unit_price * it.quantity := by
  refine C5_line_aggregation "W-APPLE" (AddOp.weighted (5/2)) [AddOp.weighted 1]
    sB0 _ rfl ?_
  norm_num [runAdds, applyAdd, add_weighted_item, sB0, lookupKey, stockQty,
    cartQty, update_total, cartSubtotal, setEntry,
    (show startsWithW "W-APPLE" = true from by decide)]

/-- C9 counterexample: with every stated receipt input fixed (shop name
"Shop", no cart lines, all monetary figures 0), two generations whose
ambient clock readings differ produce different documents — the source
interpolates `datetime.datetime.now()` into the Date/Time line, which is
not among the stated inputs. -/
theorem C9_counterexample :
    generate_receipt "Shop" [] 0 0 0 0 0 0 "A" ≠
    generate_receipt "Shop" [] 0 0 0 0 0 0 "B" := by
  intro heq
  have hdata := congrArg String.data heq
  simp only [generate_receipt, List.map_nil, List.nil_append, List.append_nil,
    List.cons_append, List.singleton_append,
    String.intercalate, String.intercalate.go, String.data_append,
    List.append_assoc, List.append_cancel_left_eq, List.append_right_inj] at hdata
  simp at hdata

/-- C9 amended: the receipt document is a pure function of the stated
inputs together with the generation-time clock reading interpolated into
the Date/Time line: two generations with identical stated inputs and an
identical clock reading produce byte-for-byte identical documents. -/
theorem C9_receipt_deterministic (sn : String) (cart : List (String × CartItem))
    (st ft da dp ra ca : ℚ) (now now' : String) (h : now = now') :
    generate_receipt sn cart st ft da dp ra ca now =
    generate_receipt sn cart st ft da dp ra ca now' := by
  rw [h]

theorem C9_receipt_deterministic_witness :
    generate_receipt "Shop" [] 0 0 0 0 0 0 "T" =
    generate_receipt "Shop" [] 0 0 0 0 0 0 "T" :=
  C9_receipt_deterministic "Shop" [] 0 0 0 0 0 0 "T" "T" rfl

/-- A one-line cart worth 50 with an unparseable discount entry. -/
def sGarbage : POSState :=
  { products := [("1001", { name := "Rice", price := 50 })]
    inventory := [("1001", 100)]
    disk_products := [("1001", { name := "Rice", price := 50 })]
    disk_inventory := [("1001", 100)]
    disk_sales := []
    cart := [("1001", itemE)]
    discount_entry := .garbage
    received_entry := .num 100
    subtotal := 50
    final_total := 50
    shop_name := "Shop" }

/-- A one-line cart worth 50 with discount percent exactly 100. -/
def s100 : POSState :=
  { sGarbage with discount_entry := .num 100 }

/-- C6 counterexample: with a nonempty cart, ample payment, and a
discount entry that does not parse as a number, checkout does not treat
the percent as 0 — the uncaught `ValueError` of `float()` at source line
573 aborts the checkout (modelled as the `discountParseError` outcome)
instead of completing the sale. -/
theorem C6_counterexample :
    (checkout sGarbage true "T").1 = CheckoutOutcome.discountParseError := by
  have hc : sGarbage.cart ≠ [] := by simp [sGarbage]
  unfold checkout
  rw [if_neg hc]
  dsimp only
  have hde : (update_total sGarbage).discount_entry = EntryVal.garbage := rfl
  rw [hde]
  rfl

/-- C6 amended: the pricing recomputation (`update_total`) treats a
discount input that fails to parse, or lies outside [0,100], as percent
0 and never raises; percent exactly 100 yields a final total of 0; the
checkout path likewise maps an empty or out-of-range input to percent 0,
but a nonempty unparseable input raises an uncaught error there,
aborting checkout before any mutation of cart, ledger or journal. -/
theorem C6_discount_handling :
    (∀ s : POSState, (update_total s).final_total =
        cartSubtotal s.cart - cartSubtotal s.cart * (effPercent s.discount_entry / 100))
    ∧ (∀ s : POSState, s.discount_entry = EntryVal.num 100 →
        (update_total s).final_total = 0)
    ∧ (∀ s : POSState, checkoutPercent (update_total s).discount_entry =
        if s.discount_entry = EntryVal.garbage then none
        else some (effPercent s.discount_entry))
    ∧ (∀ (s : POSState) (c : Bool) (now : String), s.cart ≠ [] →
        s.discount_entry = EntryVal.garbage →
        (checkout s c now).1 = CheckoutOutcome.discountParseError ∧
        (checkout s c now).2.cart = s.cart ∧
        (checkout s c now).2.disk_inventory = s.disk_inventory ∧
        (checkout s c now).2.disk_sales = s.disk_sales) := by
  refine ⟨update_total_final_total, ?_, ?_, ?_⟩
  · intro s h
    rw [update_total_final_total, h]
    norm_num [effPercent]
  · intro s
    by_cases hg : s.discount_entry = EntryVal.garbage
    · rw [if_pos hg]
      have h' : (update_total s).discount_entry = EntryVal.garbage := by
        simp [update_total, hg]
      rw [h']
      rfl
    · rw [if_neg hg]
      exact checkoutPercent_update_total s hg
  · intro s c now hcart hg
    unfold checkout
    rw [if_neg hcart]
    dsimp only
    have hde : (update_total s).discount_entry = EntryVal.garbage := by
      simp [update_total, hg]
    rw [hde]
    exact ⟨rfl, rfl, rfl, rfl⟩

theorem C6_discount_handling_witness :
    (update_total s100).final_total = 0 ∧
    (checkout sGarbage true "T").2.cart = sGarbage.cart ∧
    (checkout sGarbage true "T").2.disk_sales = sGarbage.disk_sales := by
  obtain ⟨-, h100, -, hgar⟩ := C6_discount_handling
  exact ⟨h100 s100 rfl,
    (hgar sGarbage true "T" (by simp [sGarbage]) rfl).2.1,
    (hgar sGarbage true "T" (by simp [sGarbage]) rfl).2.2.2⟩

/-- The Cart invariant of the specification: every line's quantity is
strictly positive and the stored subtotal equals the sum of line
totals. -/
def CartInv (s : POSState) : Prop :=
  (∀ p ∈ s.cart, 0 < p.2.quantity) ∧ s.subtotal = cartSubtotal s.cart

theorem cartInv_update_total (t : POSState)
    (h : ∀ p ∈ t.cart, 0 < p.2.quantity) : CartInv (update_total t) :=
  ⟨by simpa using h, rfl⟩

/-- C7: every cart operation — unit add, weighted add, line removal, and
cart clearing — preserves the Cart invariant, on success and on every
failure path alike. -/
theorem C7_cart_invariant (s : POSState) (h : CartInv s) :
    (∀ bc qe, CartInv (scan_item s bc qe).2) ∧
    (∀ bc we, CartInv (add_weighted_item s bc we).2) ∧
    (∀ idx c, CartInv (remove_selected_item s idx c)) ∧
    CartInv (clear_cart s) := by
  obtain ⟨hpos, hsub⟩ := h
  refine ⟨?_, ?_, ?_, ?_⟩
  · intro bc qe
    unfold scan_item
    dsimp only
    repeat' split
    all_goals
      first
      | exact ⟨hpos, hsub⟩
      | (apply cartInv_update_total
         intro p hp
         rcases mem_setEntry hp with heq | hmem
         · subst heq
           dsimp only
           first
           | exact Int.cast_pos.mpr (by omega)
           | exact add_pos (hpos _ (lookupKey_mem (by assumption)))
               (Int.cast_pos.mpr (by omega))
         · exact hpos p hmem)
  · intro bc we
    unfold add_weighted_item
    dsimp only
    repeat' split
    all_goals
      first
      | exact ⟨hpos, hsub⟩
      | (apply cartInv_update_total
         intro p hp
         rcases mem_setEntry hp with heq | hmem
         · subst heq
           dsimp only
           first
           | exact not_le.mp (by assumption)
           | exact add_pos (hpos _ (lookupKey_mem (by assumption)))
               (not_le.mp (by assumption))
         · exact hpos p hmem)
  · intro idx c
    unfold remove_selected_item
    split
    · exact ⟨hpos, hsub⟩
    · split
      · apply cartInv_update_total
        intro p hp
        exact hpos p (List.mem_of_mem_eraseP hp)
      · exact ⟨hpos, hsub⟩
  · apply cartInv_update_total
    intro p hp
    simp at hp

theorem C7_cart_invariant_witness :
    CartInv sC ∧ CartInv (clear_cart sC) ∧
    CartInv (scan_item sC "1001" (some 1)).2 := by
  have hInv : CartInv sC := by
    constructor
    · intro p hp
      simp only [sC, List.mem_cons, List.not_mem_nil, or_false] at hp
      rcases hp with rfl | rfl
      · norm_num [itemC]
      · norm_num [itemCW]
    · norm_num [sC, cartSubtotal, itemC, itemCW]
  have H := C7_cart_invariant sC hInv
  exact ⟨hInv, H.2.2.2, H.1 "1001" (some 1)⟩

/-- 2.5 kg of the weighted product W-APPLE already in the cart. -/
def itemW : CartItem :=
  { name := "Apple", unit_price := 80, quantity := 5/2, line_total := 200,
    is_weighted := true }

/-- Cart already holding a weighted line for W-APPLE. -/
def sMixed : POSState :=
  { products := [("W-APPLE", { name := "Apple", price := 80 })]
    inventory := [("W-APPLE", 10)]
    disk_products := [("W-APPLE", { name := "Apple", price := 80 })]
    disk_inventory := [("W-APPLE", 10)]
    disk_sales := []
    cart := [("W-APPLE", itemW)]
    discount_entry := .num 0
    received_entry := .empty
    subtotal := 200
    final_total := 200
    shop_name := "Shop" }

/-- C10 counterexample: a successful `add_unit` of one unit of `W-APPLE`
onto an existing weighted line yields a cart line with
`is_weighted = true` and the non-integer quantity 3.5 — not, as the
claim states, a line with `weighted = false` and an integer-count
quantity. -/
theorem C10_counterexample :
    (scan_item sMixed "W-APPLE" (some 1)).1 = AddResult.ok ∧
    lookupKey "W-APPLE" (scan_item sMixed "W-APPLE" (some 1)).2.cart = some
      { name := "Apple"
        unit_price := 80
        quantity := 7/2
        line_total := 280
        is_weighted := true } := by
  constructor <;>
    norm_num [scan_item, sMixed, itemW, stockQty, cartQty, lookupKey, setEntry,
      update_total, cartSubtotal,
      (show ("W-APPLE" : String) ≠ "" from by decide)]

/-- C10 amended: `add_unit` performs no weighted-marker check on the
identifier: for any identifier present in the catalog, including one
carrying the reserved `W-` marker, a successful `scan_item` that creates
a new line sets `weighted := false` with the integer count as its
quantity — so a weighted product can end up in the cart as a unit-typed
line — while a successful `scan_item` that aggregates into an existing
line adds the integer count and preserves that line's existing weighted
flag and unit price. -/
theorem C10_no_weighted_check (s : POSState) (bc : String) (q : ℤ) (s' : POSState)
    (h : scan_item s bc (some q) = (AddResult.ok, s')) :
    (lookupKey bc s.cart = none →
      ∃ pr, lookupKey bc s.products = some pr ∧
        lookupKey bc s'.cart = some
          { name := pr.name
            unit_price := pr.price
            quantity := (q : ℚ)
            line_total := pr.price * (q : ℚ)
            is_weighted := false })
    ∧ (∀ it, lookupKey bc s.cart = some it →
        lookupKey bc s'.cart = some
          { it with
            quantity := it.quantity + (q : ℚ)
            line_total := it.unit_price * (it.quantity + (q : ℚ)) }) := by
  obtain ⟨-, pr, hpr, hcases⟩ := scan_item_ok_line s bc q s' h
  constructor
  · intro h0
    rcases hcases with ⟨it, hit, -⟩ | ⟨-, hnew⟩
    · rw [h0] at hit
      cases hit
    · exact ⟨pr, hpr, hnew⟩
  · intro it hit
    rcases hcases with ⟨it', hit', hnew⟩ | ⟨hnone, -⟩
    · rw [hit] at hit'
      rw [Option.some.injEq] at hit'
      subst hit'
      exact hnew
    · rw [hit] at hnone
      cases hnone

theorem C10_no_weighted_check_witness :
    ∃ pr, lookupKey "W-APPLE" sB0.products = some pr ∧
      lookupKey "W-APPLE" (scan_item sB0 "W-APPLE" (some 2)).2.cart = some
        { name := pr.name
          unit_price := pr.price
          quantity := ((2 : ℤ) : ℚ)
          line_total := pr.price * ((2 : ℤ) : ℚ)
          is_weighted := false } :=
  (C10_no_weighted_check sB0 "W-APPLE" 2 (scan_item sB0 "W-APPLE" (some 2)).2
    (by norm_num [scan_item, sB0, stockQty, cartQty, lookupKey, setEntry,
      update_total, cartSubtotal,
      (show ("W-APPLE" : String) ≠ "" from by decide)])).1 rfl
